import Mathlib

/-!
Verification development for the NVOC-generated `ConfidentialCompute` class
(`g_conf_compute_nvoc.c`) and the GB20B memory-manager kind helper
(`mem_mgr_gb20b.c`) of the open GPU kernel modules.

The shallow embedding mirrors the C sources: the HAL variant indices are
natural numbers, the variant tests are the exact bit tests of the source,
the function table is a record whose fields hold the name of the bound
implementation, and the property-flag initializer is a pure state
transformer.
-/

namespace NvocConfCompute

/-- Return status codes.  Only the codes the embedded functions mention are
named; every other code is carried by `NV_ERR_GENERIC`. -/
inductive NV_STATUS where
  | NV_OK
  | NV_ERR_NOT_SUPPORTED
  | NV_ERR_INVALID_ARGUMENT
  | NV_ERR_GENERIC (code : Nat)
  deriving DecidableEq, Repr

/-- The `RmVariantHal: VF` test of the source
(`((rmVariantHal_HalVarIdx >> 5) == 0UL) && ((1UL << (rmVariantHal_HalVarIdx & 0x1f)) & 0x00000001UL)`).
All quantities fit in 64 bits in the C code, so plain `Nat` is faithful. -/
def vfPred (rmVariantHal_HalVarIdx : Nat) : Bool :=
  (rmVariantHal_HalVarIdx >>> 5 == 0) &&
    (((1 <<< (rmVariantHal_HalVarIdx &&& 0x1f)) &&& 0x00000001) != 0)

/-- The `RmVariantHal: PF_KERNEL_ONLY` test of the source
(`((rmVariantHal_HalVarIdx >> 5) == 0UL) && ((1UL << (rmVariantHal_HalVarIdx & 0x1f)) & 0x00000002UL)`). -/
def pfPred (rmVariantHal_HalVarIdx : Nat) : Bool :=
  (rmVariantHal_HalVarIdx >>> 5 == 0) &&
    (((1 <<< (rmVariantHal_HalVarIdx &&& 0x1f)) &&& 0x00000002) != 0)

/-- The `ChipHal: GH100` test of the source
(`((chipHal_HalVarIdx >> 5) == 1UL) && ((1UL << (chipHal_HalVarIdx & 0x1f)) & 0x10000000UL)`). -/
def gh100Pred (chipHal_HalVarIdx : Nat) : Bool :=
  (chipHal_HalVarIdx >>> 5 == 1) &&
    (((1 <<< (chipHal_HalVarIdx &&& 0x1f)) &&& 0x10000000) != 0)

/-- Names of the C functions a ConfidentialCompute function-table slot can be
bound to by `__nvoc_init_funcTable_ConfidentialCompute_1`.  One constructor
per distinct function name appearing in the source. -/
inductive CCFnPtr where
  | confComputeConstructEngine_IMPL
  | confComputeDestruct_KERNEL
  | confComputeDestruct_b3696a
  | confComputeStatePreInitLocked_56cd7a
  | confComputeStateInitLocked_IMPL
  | confComputeStatePostLoad_IMPL
  | confComputeStatePostLoad_56cd7a
  | confComputeStatePreUnload_KERNEL
  | confComputeStatePreUnload_56cd7a
  | confComputeSetErrorState_KERNEL
  | confComputeSetErrorState_b3696a
  | confComputeKeyStoreRetrieveViaChannel_GH100
  | confComputeKeyStoreRetrieveViaChannel_46f6a7
  | confComputeKeyStoreRetrieveViaKeyId_GH100
  | confComputeKeyStoreRetrieveViaKeyId_46f6a7
  | confComputeDeriveSecretsForCEKeySpace_GH100
  | confComputeDeriveSecretsForCEKeySpace_46f6a7
  | confComputeDeriveSecrets_GH100
  | confComputeDeriveSecrets_46f6a7
  | confComputeUpdateSecrets_GH100
  | confComputeUpdateSecrets_46f6a7
  | confComputeIsSpdmEnabled_cbe027
  | confComputeIsSpdmEnabled_491d52
  | confComputeGetEngineIdFromKeySpace_GH100
  | confComputeGetEngineIdFromKeySpace_78ac8b
  | confComputeGetKeySpaceFromKChannel_GH100
  | confComputeGetKeySpaceFromKChannel_46f6a7
  | confComputeGetLceKeyIdFromKChannel_GH100
  | confComputeGetLceKeyIdFromKChannel_46f6a7
  | confComputeGetMaxCeKeySpaceIdx_6c58cf
  | confComputeGetMaxCeKeySpaceIdx_4a4dee
  | confComputeGlobalKeyIsKernelPriv_GH100
  | confComputeGlobalKeyIsKernelPriv_491d52
  | confComputeGlobalKeyIsUvmKey_GH100
  | confComputeGlobalKeyIsUvmKey_491d52
  | confComputeGetKeyPairByChannel_GH100
  | confComputeGetKeyPairByChannel_46f6a7
  | confComputeTriggerKeyRotation_46f6a7
  | confComputeTriggerKeyRotation_GH100
  | confComputeTriggerKeyRotation_56cd7a
  | confComputeGetKeyPairForKeySpace_GH100
  | confComputeGetKeyPairForKeySpace_b3696a
  | confComputeEnableKeyRotationCallback_56cd7a
  | confComputeEnableKeyRotationCallback_GH100
  | confComputeEnableKeyRotationSupport_56cd7a
  | confComputeEnableKeyRotationSupport_GH100
  | confComputeEnableInternalKeyRotationSupport_56cd7a
  | confComputeEnableInternalKeyRotationSupport_GH100
  | confComputeIsDebugModeEnabled_GH100
  | confComputeIsDebugModeEnabled_491d52
  | confComputeIsGpuCcCapable_GH100
  | confComputeIsGpuCcCapable_491d52
  | confComputeEstablishSpdmSessionAndKeys_KERNEL
  | confComputeEstablishSpdmSessionAndKeys_46f6a7
  | confComputeKeyStoreDepositIvMask_GH100
  | confComputeKeyStoreDepositIvMask_b3696a
  | confComputeKeyStoreUpdateKey_GH100
  | confComputeKeyStoreUpdateKey_46f6a7
  | confComputeKeyStoreIsValidGlobalKeyId_GH100
  | confComputeKeyStoreIsValidGlobalKeyId_491d52
  | confComputeKeyStoreInit_GH100
  | confComputeKeyStoreInit_46f6a7
  | confComputeKeyStoreDeinit_GH100
  | confComputeKeyStoreDeinit_b3696a
  | confComputeKeyStoreGetExportMasterKey_GH100
  | confComputeKeyStoreGetExportMasterKey_fa6e19
  | confComputeKeyStoreDeriveKey_GH100
  | confComputeKeyStoreDeriveKey_46f6a7
  | confComputeKeyStoreClearExportMasterKey_GH100
  | confComputeKeyStoreClearExportMasterKey_b3696a
  | nvocThunk_ConfidentialCompute_engstateConstructEngine
  | nvocThunk_ConfidentialCompute_engstateStatePreInitLocked
  | nvocThunk_ConfidentialCompute_engstateStateInitLocked
  | nvocThunk_ConfidentialCompute_engstateStatePostLoad
  | nvocThunk_ConfidentialCompute_engstateStatePreUnload
  | nvocThunk_OBJENGSTATE_confComputeStateLoad
  | nvocThunk_OBJENGSTATE_confComputeStateUnload
  | nvocThunk_OBJENGSTATE_confComputeStatePreLoad
  | nvocThunk_OBJENGSTATE_confComputeStatePostUnload
  | nvocThunk_OBJENGSTATE_confComputeStateDestroy
  | nvocThunk_OBJENGSTATE_confComputeStateInitUnlocked
  | nvocThunk_OBJENGSTATE_confComputeInitMissing
  | nvocThunk_OBJENGSTATE_confComputeStatePreInitUnlocked
  | nvocThunk_OBJENGSTATE_confComputeIsPresent
  deriving DecidableEq, Repr

/-- The ConfidentialCompute function table: one field per pointer assigned by
`__nvoc_init_funcTable_ConfidentialCompute_1`, including the five hooks it
installs into the embedded `OBJENGSTATE` base object. -/
structure FuncTable where
  confComputeConstructEngine : CCFnPtr
  confComputeDestruct : CCFnPtr
  confComputeStatePreInitLocked : CCFnPtr
  confComputeStateInitLocked : CCFnPtr
  confComputeStatePostLoad : CCFnPtr
  confComputeStatePreUnload : CCFnPtr
  confComputeSetErrorState : CCFnPtr
  confComputeKeyStoreRetrieveViaChannel : CCFnPtr
  confComputeKeyStoreRetrieveViaKeyId : CCFnPtr
  confComputeDeriveSecretsForCEKeySpace : CCFnPtr
  confComputeDeriveSecrets : CCFnPtr
  confComputeUpdateSecrets : CCFnPtr
  confComputeIsSpdmEnabled : CCFnPtr
  confComputeGetEngineIdFromKeySpace : CCFnPtr
  confComputeGetKeySpaceFromKChannel : CCFnPtr
  confComputeGetLceKeyIdFromKChannel : CCFnPtr
  confComputeGetMaxCeKeySpaceIdx : CCFnPtr
  confComputeGlobalKeyIsKernelPriv : CCFnPtr
  confComputeGlobalKeyIsUvmKey : CCFnPtr
  confComputeGetKeyPairByChannel : CCFnPtr
  confComputeTriggerKeyRotation : CCFnPtr
  confComputeGetKeyPairForKeySpace : CCFnPtr
  confComputeEnableKeyRotationCallback : CCFnPtr
  confComputeEnableKeyRotationSupport : CCFnPtr
  confComputeEnableInternalKeyRotationSupport : CCFnPtr
  confComputeIsDebugModeEnabled : CCFnPtr
  confComputeIsGpuCcCapable : CCFnPtr
  confComputeEstablishSpdmSessionAndKeys : CCFnPtr
  confComputeKeyStoreDepositIvMask : CCFnPtr
  confComputeKeyStoreUpdateKey : CCFnPtr
  confComputeKeyStoreIsValidGlobalKeyId : CCFnPtr
  confComputeKeyStoreInit : CCFnPtr
  confComputeKeyStoreDeinit : CCFnPtr
  confComputeKeyStoreGetExportMasterKey : CCFnPtr
  confComputeKeyStoreDeriveKey : CCFnPtr
  confComputeKeyStoreClearExportMasterKey : CCFnPtr
  engstateConstructEngine : CCFnPtr
  engstateStatePreInitLocked : CCFnPtr
  engstateStateInitLocked : CCFnPtr
  engstateStatePostLoad : CCFnPtr
  engstateStatePreUnload : CCFnPtr
  confComputeStateLoad : CCFnPtr
  confComputeStateUnload : CCFnPtr
  confComputeStatePreLoad : CCFnPtr
  confComputeStatePostUnload : CCFnPtr
  confComputeStateDestroy : CCFnPtr
  confComputeStateInitUnlocked : CCFnPtr
  confComputeInitMissing : CCFnPtr
  confComputeStatePreInitUnlocked : CCFnPtr
  confComputeIsPresent : CCFnPtr
  deriving DecidableEq, Repr

/-- Embedding of `__nvoc_init_funcTable_ConfidentialCompute_1`: the C body
assigns every slot exactly once, branching only on the two HAL variant
indices, so it is a pure record construction here.  Each conditional mirrors
the corresponding `if` of the source. -/
def __nvoc_init_funcTable_ConfidentialCompute_1
    (rmVariantHal_HalVarIdx chipHal_HalVarIdx : Nat) : FuncTable where
  confComputeConstructEngine := .confComputeConstructEngine_IMPL
  confComputeDestruct :=
    if pfPred rmVariantHal_HalVarIdx then .confComputeDestruct_KERNEL
    else .confComputeDestruct_b3696a
  confComputeStatePreInitLocked := .confComputeStatePreInitLocked_56cd7a
  confComputeStateInitLocked := .confComputeStateInitLocked_IMPL
  confComputeStatePostLoad :=
    if pfPred rmVariantHal_HalVarIdx then .confComputeStatePostLoad_IMPL
    else .confComputeStatePostLoad_56cd7a
  confComputeStatePreUnload :=
    if pfPred rmVariantHal_HalVarIdx then .confComputeStatePreUnload_KERNEL
    else .confComputeStatePreUnload_56cd7a
  confComputeSetErrorState :=
    if pfPred rmVariantHal_HalVarIdx then .confComputeSetErrorState_KERNEL
    else .confComputeSetErrorState_b3696a
  confComputeKeyStoreRetrieveViaChannel :=
    if gh100Pred chipHal_HalVarIdx then .confComputeKeyStoreRetrieveViaChannel_GH100
    else .confComputeKeyStoreRetrieveViaChannel_46f6a7
  confComputeKeyStoreRetrieveViaKeyId :=
    if gh100Pred chipHal_HalVarIdx then .confComputeKeyStoreRetrieveViaKeyId_GH100
    else .confComputeKeyStoreRetrieveViaKeyId_46f6a7
  confComputeDeriveSecretsForCEKeySpace :=
    if gh100Pred chipHal_HalVarIdx then .confComputeDeriveSecretsForCEKeySpace_GH100
    else .confComputeDeriveSecretsForCEKeySpace_46f6a7
  confComputeDeriveSecrets :=
    if gh100Pred chipHal_HalVarIdx then .confComputeDeriveSecrets_GH100
    else .confComputeDeriveSecrets_46f6a7
  confComputeUpdateSecrets :=
    if gh100Pred chipHal_HalVarIdx then .confComputeUpdateSecrets_GH100
    else .confComputeUpdateSecrets_46f6a7
  confComputeIsSpdmEnabled :=
    if gh100Pred chipHal_HalVarIdx then .confComputeIsSpdmEnabled_cbe027
    else .confComputeIsSpdmEnabled_491d52
  confComputeGetEngineIdFromKeySpace :=
    if gh100Pred chipHal_HalVarIdx then .confComputeGetEngineIdFromKeySpace_GH100
    else .confComputeGetEngineIdFromKeySpace_78ac8b
  confComputeGetKeySpaceFromKChannel :=
    if gh100Pred chipHal_HalVarIdx then .confComputeGetKeySpaceFromKChannel_GH100
    else .confComputeGetKeySpaceFromKChannel_46f6a7
  confComputeGetLceKeyIdFromKChannel :=
    if gh100Pred chipHal_HalVarIdx then .confComputeGetLceKeyIdFromKChannel_GH100
    else .confComputeGetLceKeyIdFromKChannel_46f6a7
  confComputeGetMaxCeKeySpaceIdx :=
    if gh100Pred chipHal_HalVarIdx then .confComputeGetMaxCeKeySpaceIdx_6c58cf
    else .confComputeGetMaxCeKeySpaceIdx_4a4dee
  confComputeGlobalKeyIsKernelPriv :=
    if gh100Pred chipHal_HalVarIdx then .confComputeGlobalKeyIsKernelPriv_GH100
    else .confComputeGlobalKeyIsKernelPriv_491d52
  confComputeGlobalKeyIsUvmKey :=
    if gh100Pred chipHal_HalVarIdx then .confComputeGlobalKeyIsUvmKey_GH100
    else .confComputeGlobalKeyIsUvmKey_491d52
  confComputeGetKeyPairByChannel :=
    if gh100Pred chipHal_HalVarIdx then .confComputeGetKeyPairByChannel_GH100
    else .confComputeGetKeyPairByChannel_46f6a7
  confComputeTriggerKeyRotation :=
    if vfPred rmVariantHal_HalVarIdx then .confComputeTriggerKeyRotation_46f6a7
    else if gh100Pred chipHal_HalVarIdx then .confComputeTriggerKeyRotation_GH100
    else .confComputeTriggerKeyRotation_56cd7a
  confComputeGetKeyPairForKeySpace :=
    if gh100Pred chipHal_HalVarIdx then .confComputeGetKeyPairForKeySpace_GH100
    else .confComputeGetKeyPairForKeySpace_b3696a
  confComputeEnableKeyRotationCallback :=
    if vfPred rmVariantHal_HalVarIdx then .confComputeEnableKeyRotationCallback_56cd7a
    else if gh100Pred chipHal_HalVarIdx then .confComputeEnableKeyRotationCallback_GH100
    else .confComputeEnableKeyRotationCallback_56cd7a
  confComputeEnableKeyRotationSupport :=
    if vfPred rmVariantHal_HalVarIdx then .confComputeEnableKeyRotationSupport_56cd7a
    else if gh100Pred chipHal_HalVarIdx then .confComputeEnableKeyRotationSupport_GH100
    else .confComputeEnableKeyRotationSupport_56cd7a
  confComputeEnableInternalKeyRotationSupport :=
    if vfPred rmVariantHal_HalVarIdx then .confComputeEnableInternalKeyRotationSupport_56cd7a
    else if gh100Pred chipHal_HalVarIdx then .confComputeEnableInternalKeyRotationSupport_GH100
    else .confComputeEnableInternalKeyRotationSupport_56cd7a
  confComputeIsDebugModeEnabled :=
    if gh100Pred chipHal_HalVarIdx then .confComputeIsDebugModeEnabled_GH100
    else .confComputeIsDebugModeEnabled_491d52
  confComputeIsGpuCcCapable :=
    if gh100Pred chipHal_HalVarIdx then .confComputeIsGpuCcCapable_GH100
    else .confComputeIsGpuCcCapable_491d52
  confComputeEstablishSpdmSessionAndKeys :=
    if pfPred rmVariantHal_HalVarIdx then .confComputeEstablishSpdmSessionAndKeys_KERNEL
    else .confComputeEstablishSpdmSessionAndKeys_46f6a7
  confComputeKeyStoreDepositIvMask :=
    if gh100Pred chipHal_HalVarIdx then .confComputeKeyStoreDepositIvMask_GH100
    else .confComputeKeyStoreDepositIvMask_b3696a
  confComputeKeyStoreUpdateKey :=
    if gh100Pred chipHal_HalVarIdx then .confComputeKeyStoreUpdateKey_GH100
    else .confComputeKeyStoreUpdateKey_46f6a7
  confComputeKeyStoreIsValidGlobalKeyId :=
    if gh100Pred chipHal_HalVarIdx then .confComputeKeyStoreIsValidGlobalKeyId_GH100
    else .confComputeKeyStoreIsValidGlobalKeyId_491d52
  confComputeKeyStoreInit :=
    if gh100Pred chipHal_HalVarIdx then .confComputeKeyStoreInit_GH100
    else .confComputeKeyStoreInit_46f6a7
  confComputeKeyStoreDeinit :=
    if gh100Pred chipHal_HalVarIdx then .confComputeKeyStoreDeinit_GH100
    else .confComputeKeyStoreDeinit_b3696a
  confComputeKeyStoreGetExportMasterKey :=
    if gh100Pred chipHal_HalVarIdx then .confComputeKeyStoreGetExportMasterKey_GH100
    else .confComputeKeyStoreGetExportMasterKey_fa6e19
  confComputeKeyStoreDeriveKey :=
    if gh100Pred chipHal_HalVarIdx then .confComputeKeyStoreDeriveKey_GH100
    else .confComputeKeyStoreDeriveKey_46f6a7
  confComputeKeyStoreClearExportMasterKey :=
    if gh100Pred chipHal_HalVarIdx then .confComputeKeyStoreClearExportMasterKey_GH100
    else .confComputeKeyStoreClearExportMasterKey_b3696a
  engstateConstructEngine := .nvocThunk_ConfidentialCompute_engstateConstructEngine
  engstateStatePreInitLocked := .nvocThunk_ConfidentialCompute_engstateStatePreInitLocked
  engstateStateInitLocked := .nvocThunk_ConfidentialCompute_engstateStateInitLocked
  engstateStatePostLoad := .nvocThunk_ConfidentialCompute_engstateStatePostLoad
  engstateStatePreUnload := .nvocThunk_ConfidentialCompute_engstateStatePreUnload
  confComputeStateLoad := .nvocThunk_OBJENGSTATE_confComputeStateLoad
  confComputeStateUnload := .nvocThunk_OBJENGSTATE_confComputeStateUnload
  confComputeStatePreLoad := .nvocThunk_OBJENGSTATE_confComputeStatePreLoad
  confComputeStatePostUnload := .nvocThunk_OBJENGSTATE_confComputeStatePostUnload
  confComputeStateDestroy := .nvocThunk_OBJENGSTATE_confComputeStateDestroy
  confComputeStateInitUnlocked := .nvocThunk_OBJENGSTATE_confComputeStateInitUnlocked
  confComputeInitMissing := .nvocThunk_OBJENGSTATE_confComputeInitMissing
  confComputeStatePreInitUnlocked := .nvocThunk_OBJENGSTATE_confComputeStatePreInitUnlocked
  confComputeIsPresent := .nvocThunk_OBJENGSTATE_confComputeIsPresent

/-- Embedding of `__nvoc_init_funcTable_ConfidentialCompute`, which just
calls `_1`. -/
def __nvoc_init_funcTable_ConfidentialCompute
    (rmVariantHal_HalVarIdx chipHal_HalVarIdx : Nat) : FuncTable :=
  __nvoc_init_funcTable_ConfidentialCompute_1 rmVariantHal_HalVarIdx chipHal_HalVarIdx

/-- The `PDB_PROP_CONFCOMPUTE_*` property flags set by
`__nvoc_init_dataField_ConfidentialCompute`, in source order. -/
structure CCProperties where
  isMissing : Bool
  ccEnabled : Bool
  ccFeatureEnabled : Bool
  apmFeatureEnabled : Bool
  devtoolsModeEnabled : Bool
  enableEarlyInit : Bool
  gpusReadyCheckEnabled : Bool
  spdmEnabled : Bool
  multiGpuProtectedPcieModeEnabled : Bool
  keyRotationSupported : Bool
  keyRotationEnabled : Bool
  internalKeyRotationEnabled : Bool
  deriving DecidableEq, Repr

/-- The all-false property state produced by the `portMemSet(pThis, 0, ...)`
in `__nvoc_objCreate_ConfidentialCompute` before any initializer runs. -/
def zeroProps : CCProperties where
  isMissing := false
  ccEnabled := false
  ccFeatureEnabled := false
  apmFeatureEnabled := false
  devtoolsModeEnabled := false
  enableEarlyInit := false
  gpusReadyCheckEnabled := false
  spdmEnabled := false
  multiGpuProtectedPcieModeEnabled := false
  keyRotationSupported := false
  keyRotationEnabled := false
  internalKeyRotationEnabled := false

/-- Embedding of `__nvoc_init_dataField_ConfidentialCompute`: the
`PDB_PROP_CONFCOMPUTE_IS_MISSING` flag is set conditionally on the RmVariant
HAL index (true on VF, false on PF_KERNEL_ONLY, untouched otherwise), then
the remaining flags are set unconditionally; `((NvBool)(0 == 0))` is true and
`((NvBool)(0 != 0))` is false.  The ChipHal index is read but unused by the
source body, and is kept as a parameter for fidelity. -/
def __nvoc_init_dataField_ConfidentialCompute
    (rmVariantHal_HalVarIdx chipHal_HalVarIdx : Nat)
    (pThis : CCProperties) : CCProperties :=
  let _ := chipHal_HalVarIdx
  let pThis :=
    if vfPred rmVariantHal_HalVarIdx then { pThis with isMissing := true }
    else if pfPred rmVariantHal_HalVarIdx then { pThis with isMissing := false }
    else pThis
  { pThis with
    ccEnabled := false
    ccFeatureEnabled := false
    apmFeatureEnabled := false
    devtoolsModeEnabled := false
    enableEarlyInit := false
    gpusReadyCheckEnabled := true
    spdmEnabled := false
    multiGpuProtectedPcieModeEnabled := false
    keyRotationSupported := false
    keyRotationEnabled := false
    internalKeyRotationEnabled := false }

/-- Modelled from the spec: the bodies of the hash-suffixed default stubs
(`_46f6a7`, `_56cd7a`, ...) live in `g_conf_compute_nvoc.h`, which is not
part of the sources here; only their names and bindings are.  The spec fixes
their behavior: reaching a variant stub fails `UnsupportedOperation`
(`NV_ERR_NOT_SUPPORTED`), and the explicitly-defined safe no-op defaults
(such as the rotation-enable operations) return success (`NV_OK`); a stub
ignores its arguments and leaves the object state unchanged.  Real
implementations (`_GH100`, `_KERNEL`, `_IMPL`) and void/boolean stubs are not
given semantics (`none`). -/
def stubCall (fn : CCFnPtr) (st : CCProperties) (args : Nat) :
    Option (NV_STATUS × CCProperties) :=
  let _ := args
  match fn with
  | .confComputeKeyStoreRetrieveViaChannel_46f6a7
  | .confComputeKeyStoreRetrieveViaKeyId_46f6a7
  | .confComputeDeriveSecretsForCEKeySpace_46f6a7
  | .confComputeDeriveSecrets_46f6a7
  | .confComputeUpdateSecrets_46f6a7
  | .confComputeGetKeySpaceFromKChannel_46f6a7
  | .confComputeGetLceKeyIdFromKChannel_46f6a7
  | .confComputeGetKeyPairByChannel_46f6a7
  | .confComputeTriggerKeyRotation_46f6a7
  | .confComputeEstablishSpdmSessionAndKeys_46f6a7
  | .confComputeKeyStoreUpdateKey_46f6a7
  | .confComputeKeyStoreInit_46f6a7
  | .confComputeKeyStoreDeriveKey_46f6a7 =>
      some (.NV_ERR_NOT_SUPPORTED, st)
  | .confComputeStatePreInitLocked_56cd7a
  | .confComputeStatePostLoad_56cd7a
  | .confComputeStatePreUnload_56cd7a
  | .confComputeTriggerKeyRotation_56cd7a
  | .confComputeEnableKeyRotationCallback_56cd7a
  | .confComputeEnableKeyRotationSupport_56cd7a
  | .confComputeEnableInternalKeyRotationSupport_56cd7a =>
      some (.NV_OK, st)
  | _ => none

/-- Modelled from the spec: classification of a bound function as the
fail-fast variant stub (`UnsupportedOperation (variant stub reached)` in the
spec's error taxonomy); these are exactly the `_46f6a7` bodies of
`g_conf_compute_nvoc.h`, which is not part of the sources here. -/
def isErrorStub (fn : CCFnPtr) : Bool :=
  match fn with
  | .confComputeKeyStoreRetrieveViaChannel_46f6a7
  | .confComputeKeyStoreRetrieveViaKeyId_46f6a7
  | .confComputeDeriveSecretsForCEKeySpace_46f6a7
  | .confComputeDeriveSecrets_46f6a7
  | .confComputeUpdateSecrets_46f6a7
  | .confComputeGetKeySpaceFromKChannel_46f6a7
  | .confComputeGetLceKeyIdFromKChannel_46f6a7
  | .confComputeGetKeyPairByChannel_46f6a7
  | .confComputeTriggerKeyRotation_46f6a7
  | .confComputeEstablishSpdmSessionAndKeys_46f6a7
  | .confComputeKeyStoreUpdateKey_46f6a7
  | .confComputeKeyStoreInit_46f6a7
  | .confComputeKeyStoreDeriveKey_46f6a7 => true
  | _ => false

/-- Modelled from the spec: the dispatch performed by the NVOC thunks whose
bodies are in the source (`__nvoc_thunk_ConfidentialCompute_engstate...`):
each translates an engstate-level hook call into a call through the
corresponding `confCompute...` slot of the object's function table.  The
table lookup itself happens in `g_conf_compute_nvoc.h` accessor macros, not
part of the sources here. -/
def thunkDispatch (t : FuncTable) (fn : CCFnPtr) : Option CCFnPtr :=
  match fn with
  | .nvocThunk_ConfidentialCompute_engstateConstructEngine =>
      some t.confComputeConstructEngine
  | .nvocThunk_ConfidentialCompute_engstateStatePreInitLocked =>
      some t.confComputeStatePreInitLocked
  | .nvocThunk_ConfidentialCompute_engstateStateInitLocked =>
      some t.confComputeStateInitLocked
  | .nvocThunk_ConfidentialCompute_engstateStatePostLoad =>
      some t.confComputeStatePostLoad
  | .nvocThunk_ConfidentialCompute_engstateStatePreUnload =>
      some t.confComputeStatePreUnload
  | _ => none

/-- `createFlags` bits read by `__nvoc_objCreate_ConfidentialCompute`. -/
structure CreateFlags where
  parentHalspecOnly : Bool
  inPlaceConstruct : Bool
  deriving DecidableEq, Repr

/-- Where the allocation made for the object stands when
`__nvoc_objCreate_ConfidentialCompute` returns. -/
inductive MemState where
  /-- `__nvoc_handleObjCreateMemAlloc` failed; nothing was allocated. -/
  | notAllocated
  /-- a fully constructed live object. -/
  | constructed
  /-- the function returned without freeing or re-zeroing the block: it still
  holds the zero-fill plus the RTTI and `createFlags` writes (and whatever
  initialization ran before the exit). -/
  | allocatedPartial
  /-- the cleanup path called `portMemFree`. -/
  | freed
  /-- the cleanup path re-zeroed the block (in-place construction). -/
  | zeroed
  deriving DecidableEq, Repr

/-- Result of `__nvoc_objCreate_ConfidentialCompute` as observable by the
caller. -/
structure CreateResult where
  status : NV_STATUS
  /-- the child object is still linked into the parent on return. -/
  childLinked : Bool
  mem : MemState
  /-- the cleanup path stored NULL through `ppThis`. -/
  ppThisNulled : Bool
  /-- the constructed object (function table and property flags) on success. -/
  obj : Option (FuncTable × CCProperties)
  deriving DecidableEq, Repr

/-- Embedding of `__nvoc_objCreate_ConfidentialCompute`.  External effects
are parameters: `allocStatus` is the result of
`__nvoc_handleObjCreateMemAlloc`, `parentNull` states whether `pParent` is
NULL, `halspecFound` whether `dynamicCast`/`objFindAncestorOfType` produced a
`RmHalspecOwner`, and `engstateCtorStatus` the result of
`__nvoc_ctor_OBJENGSTATE` inside `__nvoc_ctor_ConfidentialCompute` (whose
only other step, `__nvoc_init_dataField_ConfidentialCompute`, cannot fail).
A non-NULL parent always casts to `Object`, so the child is linked exactly
when the parent exists and `NVOC_OBJ_CREATE_FLAGS_PARENT_HALSPEC_ONLY` is
clear.  The two `NV_ASSERT_OR_RETURN` exits return directly, skipping the
cleanup label. -/
def __nvoc_objCreate_ConfidentialCompute
    (allocStatus : NV_STATUS) (parentNull : Bool) (halspecFound : Bool)
    (engstateCtorStatus : NV_STATUS) (createFlags : CreateFlags)
    (rmVariantHal_HalVarIdx chipHal_HalVarIdx : Nat) : CreateResult :=
  if allocStatus = .NV_OK then
    -- portMemSet zero, RTTI, createFlags store, then the parent assert
    if parentNull then
      { status := .NV_ERR_INVALID_ARGUMENT, childLinked := false,
        mem := .allocatedPartial, ppThisNulled := false, obj := none }
    else
      let linked := !createFlags.parentHalspecOnly
      if !halspecFound then
        { status := .NV_ERR_INVALID_ARGUMENT, childLinked := linked,
          mem := .allocatedPartial, ppThisNulled := false, obj := none }
      else if engstateCtorStatus = .NV_OK then
        { status := .NV_OK, childLinked := linked, mem := .constructed,
          ppThisNulled := false,
          obj := some
            (__nvoc_init_funcTable_ConfidentialCompute
              rmVariantHal_HalVarIdx chipHal_HalVarIdx,
             __nvoc_init_dataField_ConfidentialCompute
              rmVariantHal_HalVarIdx chipHal_HalVarIdx zeroProps) }
      else
        -- cleanup label: unlink if linked, then free or re-zero
        { status := engstateCtorStatus, childLinked := false,
          mem := if createFlags.inPlaceConstruct then .zeroed else .freed,
          ppThisNulled := !createFlags.inPlaceConstruct, obj := none }
  else
    { status := allocStatus, childLinked := false, mem := .notAllocated,
      ppThisNulled := false, obj := none }

end NvocConfCompute

namespace MemMgrGB20B

/-! Kind constants.  Modelled from the spec's out-of-scope note: the numeric
values come from the published `dev_mmu.h` header for this chip, which is not
part of the sources here; the claims only depend on the constants being
distinct and on the case structure of `memmgrGetCompressedKind_GB20B`. -/

def NV_MMU_PTE_KIND_PITCH : Nat := 0x00
def NV_MMU_PTE_KIND_Z16 : Nat := 0x01
def NV_MMU_PTE_KIND_S8 : Nat := 0x02
def NV_MMU_PTE_KIND_GENERIC_MEMORY : Nat := 0x06
def NV_MMU_PTE_KIND_INVALID : Nat := 0x07
def NV_MMU_PTE_KIND_GENERIC_MEMORY_COMPRESSIBLE : Nat := 0x08
def NV_MMU_PTE_KIND_GENERIC_MEMORY_COMPRESSIBLE_DISABLE_PLC : Nat := 0x09
def NV_MMU_PTE_KIND_S8_COMPRESSIBLE_DISABLE_PLC : Nat := 0x0A
def NV_MMU_PTE_KIND_Z16_COMPRESSIBLE_DISABLE_PLC : Nat := 0x0B

/-- Embedding of `memmgrGetCompressedKind_GB20B`: a `switch` over the PTE
kind with three case groups and a default returning
`NV_MMU_PTE_KIND_INVALID`. -/
def memmgrGetCompressedKind_GB20B (kind : Nat) (bDisablePlc : Bool) : Nat :=
  if kind = NV_MMU_PTE_KIND_GENERIC_MEMORY ∨
     kind = NV_MMU_PTE_KIND_GENERIC_MEMORY_COMPRESSIBLE ∨
     kind = NV_MMU_PTE_KIND_GENERIC_MEMORY_COMPRESSIBLE_DISABLE_PLC then
    if bDisablePlc then NV_MMU_PTE_KIND_GENERIC_MEMORY_COMPRESSIBLE_DISABLE_PLC
    else NV_MMU_PTE_KIND_GENERIC_MEMORY_COMPRESSIBLE
  else if kind = NV_MMU_PTE_KIND_S8 ∨
          kind = NV_MMU_PTE_KIND_S8_COMPRESSIBLE_DISABLE_PLC then
    NV_MMU_PTE_KIND_S8_COMPRESSIBLE_DISABLE_PLC
  else if kind = NV_MMU_PTE_KIND_Z16 ∨
          kind = NV_MMU_PTE_KIND_Z16_COMPRESSIBLE_DISABLE_PLC then
    NV_MMU_PTE_KIND_Z16_COMPRESSIBLE_DISABLE_PLC
  else
    NV_MMU_PTE_KIND_INVALID

end MemMgrGB20B

namespace NvocConfCompute

lemma vfPred_eq_zero (rm : Nat) (h : vfPred rm = true) : rm = 0 := by
  have h1 : (rm >>> 5 == 0) = true := (Bool.and_eq_true _ _ |>.mp h).1
  have h2 : rm / 32 = 0 := by
    have h3 : rm >>> 5 = 0 := by simpa using h1
    simpa [Nat.shiftRight_eq_div_pow] using h3
  have hlt : rm < 32 := by omega
  interval_cases rm <;> revert h <;> decide

lemma vfPred_imp_not_pfPred (rm : Nat) (h : vfPred rm = true) :
    pfPred rm = false := by
  have := vfPred_eq_zero rm h
  subst this
  decide

/-- C1: on every silicon family other than GH100, the five Key Store
operation slots (`keyStoreInit`, `keyStoreDeriveKey`, `keyStoreUpdateKey`,
`keyStoreRetrieveViaChannel`, `keyStoreRetrieveViaKeyId`) are bound at
construction to the `_46f6a7` variant stub, and a call through any of them
returns `NV_ERR_NOT_SUPPORTED` (`UnsupportedOperation`) for every argument
and every object state, leaving the state unchanged. -/
theorem keyStore_ops_unsupported_off_GH100 (rm chip : Nat)
    (h : gh100Pred chip = false) :
    ((__nvoc_init_funcTable_ConfidentialCompute_1 rm chip).confComputeKeyStoreInit
        = .confComputeKeyStoreInit_46f6a7 ∧
      ∀ st args, stubCall
        (__nvoc_init_funcTable_ConfidentialCompute_1 rm chip).confComputeKeyStoreInit
        st args = some (.NV_ERR_NOT_SUPPORTED, st)) ∧
    ((__nvoc_init_funcTable_ConfidentialCompute_1 rm chip).confComputeKeyStoreDeriveKey
        = .confComputeKeyStoreDeriveKey_46f6a7 ∧
      ∀ st args, stubCall
        (__nvoc_init_funcTable_ConfidentialCompute_1 rm chip).confComputeKeyStoreDeriveKey
        st args = some (.NV_ERR_NOT_SUPPORTED, st)) ∧
    ((__nvoc_init_funcTable_ConfidentialCompute_1 rm chip).confComputeKeyStoreUpdateKey
        = .confComputeKeyStoreUpdateKey_46f6a7 ∧
      ∀ st args, stubCall
        (__nvoc_init_funcTable_ConfidentialCompute_1 rm chip).confComputeKeyStoreUpdateKey
        st args = some (.NV_ERR_NOT_SUPPORTED, st)) ∧
    ((__nvoc_init_funcTable_ConfidentialCompute_1 rm chip).confComputeKeyStoreRetrieveViaChannel
        = .confComputeKeyStoreRetrieveViaChannel_46f6a7 ∧
      ∀ st args, stubCall
        (__nvoc_init_funcTable_ConfidentialCompute_1 rm chip).confComputeKeyStoreRetrieveViaChannel
        st args = some (.NV_ERR_NOT_SUPPORTED, st)) ∧
    ((__nvoc_init_funcTable_ConfidentialCompute_1 rm chip).confComputeKeyStoreRetrieveViaKeyId
        = .confComputeKeyStoreRetrieveViaKeyId_46f6a7 ∧
      ∀ st args, stubCall
        (__nvoc_init_funcTable_ConfidentialCompute_1 rm chip).confComputeKeyStoreRetrieveViaKeyId
        st args = some (.NV_ERR_NOT_SUPPORTED, st)) := by
  simp [__nvoc_init_funcTable_ConfidentialCompute_1, h, stubCall]

/-- Witness for `keyStore_ops_unsupported_off_GH100` at `rm = 1`,
`chip = 0`. -/
theorem keyStore_ops_unsupported_off_GH100_witness :
    gh100Pred 0 = false ∧
    ((__nvoc_init_funcTable_ConfidentialCompute_1 1 0).confComputeKeyStoreInit
        = .confComputeKeyStoreInit_46f6a7 ∧
      ∀ st args, stubCall
        (__nvoc_init_funcTable_ConfidentialCompute_1 1 0).confComputeKeyStoreInit
        st args = some (.NV_ERR_NOT_SUPPORTED, st)) ∧
    ((__nvoc_init_funcTable_ConfidentialCompute_1 1 0).confComputeKeyStoreDeriveKey
        = .confComputeKeyStoreDeriveKey_46f6a7 ∧
      ∀ st args, stubCall
        (__nvoc_init_funcTable_ConfidentialCompute_1 1 0).confComputeKeyStoreDeriveKey
        st args = some (.NV_ERR_NOT_SUPPORTED, st)) ∧
    ((__nvoc_init_funcTable_ConfidentialCompute_1 1 0).confComputeKeyStoreUpdateKey
        = .confComputeKeyStoreUpdateKey_46f6a7 ∧
      ∀ st args, stubCall
        (__nvoc_init_funcTable_ConfidentialCompute_1 1 0).confComputeKeyStoreUpdateKey
        st args = some (.NV_ERR_NOT_SUPPORTED, st)) ∧
    ((__nvoc_init_funcTable_ConfidentialCompute_1 1 0).confComputeKeyStoreRetrieveViaChannel
        = .confComputeKeyStoreRetrieveViaChannel_46f6a7 ∧
      ∀ st args, stubCall
        (__nvoc_init_funcTable_ConfidentialCompute_1 1 0).confComputeKeyStoreRetrieveViaChannel
        st args = some (.NV_ERR_NOT_SUPPORTED, st)) ∧
    ((__nvoc_init_funcTable_ConfidentialCompute_1 1 0).confComputeKeyStoreRetrieveViaKeyId
        = .confComputeKeyStoreRetrieveViaKeyId_46f6a7 ∧
      ∀ st args, stubCall
        (__nvoc_init_funcTable_ConfidentialCompute_1 1 0).confComputeKeyStoreRetrieveViaKeyId
        st args = some (.NV_ERR_NOT_SUPPORTED, st)) :=
  ⟨by decide, keyStore_ops_unsupported_off_GH100 1 0 (by decide)⟩

/-- C3: on every guest/VF variant, `triggerKeyRotation` is bound at
construction to the `_46f6a7` stub and fails `NV_ERR_NOT_SUPPORTED`
(`RotationNotSupported`) for every scope argument, every silicon family and
every object state; `enableKeyRotationSupport` on such a variant is the
success no-op, so calling it first changes nothing and the subsequent
`triggerKeyRotation` still fails the same way. -/
theorem triggerKeyRotation_fails_on_VF (rm chip : Nat)
    (h : vfPred rm = true) :
    (__nvoc_init_funcTable_ConfidentialCompute_1 rm chip).confComputeTriggerKeyRotation
        = .confComputeTriggerKeyRotation_46f6a7 ∧
    (∀ st args, stubCall
        (__nvoc_init_funcTable_ConfidentialCompute_1 rm chip).confComputeTriggerKeyRotation
        st args = some (.NV_ERR_NOT_SUPPORTED, st)) ∧
    (__nvoc_init_funcTable_ConfidentialCompute_1 rm chip).confComputeEnableKeyRotationSupport
        = .confComputeEnableKeyRotationSupport_56cd7a ∧
    (∀ st args, stubCall
        (__nvoc_init_funcTable_ConfidentialCompute_1 rm chip).confComputeEnableKeyRotationSupport
        st args = some (.NV_OK, st)) ∧
    (∀ st args r st', stubCall
        (__nvoc_init_funcTable_ConfidentialCompute_1 rm chip).confComputeEnableKeyRotationSupport
        st args = some (r, st') →
      ∀ args', stubCall
        (__nvoc_init_funcTable_ConfidentialCompute_1 rm chip).confComputeTriggerKeyRotation
        st' args' = some (.NV_ERR_NOT_SUPPORTED, st')) := by
  refine ⟨?_, ?_, ?_, ?_, ?_⟩ <;>
    simp [__nvoc_init_funcTable_ConfidentialCompute_1, h, stubCall]

/-- Witness for `triggerKeyRotation_fails_on_VF` at `rm = 0` (the VF index)
and `chip = 60` (the GH100 index): even on CC-capable silicon the VF binding
fails. -/
theorem triggerKeyRotation_fails_on_VF_witness :
    vfPred 0 = true ∧
    (__nvoc_init_funcTable_ConfidentialCompute_1 0 60).confComputeTriggerKeyRotation
        = .confComputeTriggerKeyRotation_46f6a7 ∧
    (∀ st args, stubCall
        (__nvoc_init_funcTable_ConfidentialCompute_1 0 60).confComputeTriggerKeyRotation
        st args = some (.NV_ERR_NOT_SUPPORTED, st)) ∧
    (__nvoc_init_funcTable_ConfidentialCompute_1 0 60).confComputeEnableKeyRotationSupport
        = .confComputeEnableKeyRotationSupport_56cd7a ∧
    (∀ st args, stubCall
        (__nvoc_init_funcTable_ConfidentialCompute_1 0 60).confComputeEnableKeyRotationSupport
        st args = some (.NV_OK, st)) ∧
    (∀ st args r st', stubCall
        (__nvoc_init_funcTable_ConfidentialCompute_1 0 60).confComputeEnableKeyRotationSupport
        st args = some (r, st') →
      ∀ args', stubCall
        (__nvoc_init_funcTable_ConfidentialCompute_1 0 60).confComputeTriggerKeyRotation
        st' args' = some (.NV_ERR_NOT_SUPPORTED, st')) := by
  have h := triggerKeyRotation_fails_on_VF 0 60 (by decide)
  exact ⟨by decide, h.1, h.2.1, h.2.2.1, h.2.2.2.1, h.2.2.2.2⟩

/-- C5: function-table initialization is a pure, deterministic function of
the two HAL variant indices: two constructions whose indices classify to the
same privilege role (VF / PF_KERNEL_ONLY bits) and the same silicon family
(GH100 bit) produce identical tables, slot for slot. -/
theorem funcTable_pure_function_of_variant (rm₁ chip₁ rm₂ chip₂ : Nat)
    (hvf : vfPred rm₁ = vfPred rm₂) (hpf : pfPred rm₁ = pfPred rm₂)
    (hgh : gh100Pred chip₁ = gh100Pred chip₂) :
    __nvoc_init_funcTable_ConfidentialCompute_1 rm₁ chip₁ =
      __nvoc_init_funcTable_ConfidentialCompute_1 rm₂ chip₂ := by
  unfold __nvoc_init_funcTable_ConfidentialCompute_1
  rw [hvf, hpf, hgh]

/-- Witness for `funcTable_pure_function_of_variant` at two distinct index
pairs with the same classification (`rm = 2` and `rm = 3` are neither VF nor
PF_KERNEL_ONLY; `chip = 0` and `chip = 1` are both non-GH100). -/
theorem funcTable_pure_function_of_variant_witness :
    vfPred 2 = vfPred 3 ∧ pfPred 2 = pfPred 3 ∧
    gh100Pred 0 = gh100Pred 1 ∧
    __nvoc_init_funcTable_ConfidentialCompute_1 2 0 =
      __nvoc_init_funcTable_ConfidentialCompute_1 3 1 :=
  ⟨by decide, by decide, by decide,
    funcTable_pure_function_of_variant 2 0 3 1 (by decide) (by decide) (by decide)⟩

/-- C6: construction sets `PDB_PROP_CONFCOMPUTE_IS_MISSING` to true exactly
on the VF variant and to false on the PF_KERNEL_ONLY variant (any other
RmVariant index leaves the zero-initialized value untouched). -/
theorem isMissing_true_iff_VF (rm chip : Nat) (st : CCProperties) :
    (__nvoc_init_dataField_ConfidentialCompute rm chip st).isMissing =
      (if vfPred rm then true else if pfPred rm then false else st.isMissing) := by
  unfold __nvoc_init_dataField_ConfidentialCompute
  split_ifs <;> rfl

/-- C7: construction initializes `KEY_ROTATION_SUPPORTED`,
`KEY_ROTATION_ENABLED` and `INTERNAL_KEY_ROTATION_ENABLED` to false for
every variant and every incoming state, so the rotation-policy invariant
`enabled implies supported` holds in the construction-time state. -/
theorem rotation_flags_false_at_construction (rm chip : Nat)
    (st : CCProperties) :
    (__nvoc_init_dataField_ConfidentialCompute rm chip st).keyRotationSupported
        = false ∧
    (__nvoc_init_dataField_ConfidentialCompute rm chip st).keyRotationEnabled
        = false ∧
    (__nvoc_init_dataField_ConfidentialCompute rm chip st).internalKeyRotationEnabled
        = false ∧
    ((__nvoc_init_dataField_ConfidentialCompute rm chip st).keyRotationEnabled &&
      !(__nvoc_init_dataField_ConfidentialCompute rm chip st).keyRotationSupported)
        = false := by
  unfold __nvoc_init_dataField_ConfidentialCompute
  split_ifs <;> simp

/-- C9: for every variant, the `statePreInitLocked` slot is bound to the one
fixed success stub `confComputeStatePreInitLocked_56cd7a`, the engstate-level
hook is bound to the thunk that dispatches to that slot, and a call through
the stub returns `NV_OK` and leaves the object state unchanged. -/
theorem statePreInitLocked_fixed_success_stub (rm chip : Nat) :
    (__nvoc_init_funcTable_ConfidentialCompute_1 rm chip).confComputeStatePreInitLocked
        = .confComputeStatePreInitLocked_56cd7a ∧
    (__nvoc_init_funcTable_ConfidentialCompute_1 rm chip).engstateStatePreInitLocked
        = .nvocThunk_ConfidentialCompute_engstateStatePreInitLocked ∧
    thunkDispatch (__nvoc_init_funcTable_ConfidentialCompute_1 rm chip)
        (__nvoc_init_funcTable_ConfidentialCompute_1 rm chip).engstateStatePreInitLocked
        = some .confComputeStatePreInitLocked_56cd7a ∧
    ∀ st args, stubCall
        (__nvoc_init_funcTable_ConfidentialCompute_1 rm chip).confComputeStatePreInitLocked
        st args = some (.NV_OK, st) := by
  refine ⟨rfl, rfl, rfl, ?_⟩
  intro st args
  rfl

/-- C2 counterexample: on the VF variant (RmVariant index 0, here with the
GH100 chip index 60), the session-bootstrap slot bound at construction is
the `_46f6a7` variant stub, and a call through it returns
`NV_ERR_NOT_SUPPORTED` — an error, not a trivially-absent success. -/
theorem establishSpdm_VF_returns_error_counterexample :
    vfPred 0 = true ∧
    (__nvoc_init_funcTable_ConfidentialCompute_1 0 60).confComputeEstablishSpdmSessionAndKeys
        = .confComputeEstablishSpdmSessionAndKeys_46f6a7 ∧
    stubCall
        (__nvoc_init_funcTable_ConfidentialCompute_1 0 60).confComputeEstablishSpdmSessionAndKeys
        zeroProps 0 = some (.NV_ERR_NOT_SUPPORTED, zeroProps) ∧
    NV_STATUS.NV_ERR_NOT_SUPPORTED ≠ NV_STATUS.NV_OK := by
  decide

/-- C2 amended: on every guest/VF variant, the session-bootstrap slot bound
at construction (`confComputeEstablishSpdmSessionAndKeys`) is the `_46f6a7`
unsupported-variant stub, which returns `NV_ERR_NOT_SUPPORTED` for every
argument and every object state. -/
theorem establishSpdm_VF_unsupported (rm chip : Nat) (h : vfPred rm = true) :
    (__nvoc_init_funcTable_ConfidentialCompute_1 rm chip).confComputeEstablishSpdmSessionAndKeys
        = .confComputeEstablishSpdmSessionAndKeys_46f6a7 ∧
    ∀ st args, stubCall
        (__nvoc_init_funcTable_ConfidentialCompute_1 rm chip).confComputeEstablishSpdmSessionAndKeys
        st args = some (.NV_ERR_NOT_SUPPORTED, st) := by
  have hpf := vfPred_imp_not_pfPred rm h
  refine ⟨?_, ?_⟩ <;>
    simp [__nvoc_init_funcTable_ConfidentialCompute_1, hpf, stubCall]

/-- Witness for `establishSpdm_VF_unsupported` at `rm = 0`, `chip = 0`. -/
theorem establishSpdm_VF_unsupported_witness :
    vfPred 0 = true ∧
    ((__nvoc_init_funcTable_ConfidentialCompute_1 0 0).confComputeEstablishSpdmSessionAndKeys
        = .confComputeEstablishSpdmSessionAndKeys_46f6a7 ∧
      ∀ st args, stubCall
        (__nvoc_init_funcTable_ConfidentialCompute_1 0 0).confComputeEstablishSpdmSessionAndKeys
        st args = some (.NV_ERR_NOT_SUPPORTED, st)) :=
  ⟨by decide, establishSpdm_VF_unsupported 0 0 (by decide)⟩

/-- C4 counterexample: VF on non-GH100 silicon is a combination without a
dedicated `keyStoreDeinit` implementation, and `keyStoreDeinit` is not one of
the key-rotation support/enable/callback operations, yet its binding is the
void no-op `_b3696a`, not a fail-fast error stub. -/
theorem default_bindings_not_all_error_counterexample :
    vfPred 0 = true ∧ gh100Pred 0 = false ∧
    (__nvoc_init_funcTable_ConfidentialCompute_1 0 0).confComputeKeyStoreDeinit
        = .confComputeKeyStoreDeinit_b3696a ∧
    isErrorStub
      (__nvoc_init_funcTable_ConfidentialCompute_1 0 0).confComputeKeyStoreDeinit
        = false := by
  decide

/-- C4 amended: on every combination with neither the GH100 chip bit nor the
PF_KERNEL_ONLY role bit (so no operation has a dedicated implementation),
the table binds the Key Store and session entry points to the `_46f6a7`
fail-fast error stub, the key-rotation support/enable/callback operations to
the `_56cd7a` success no-op (as does `triggerKeyRotation` off VF, while VF
binds it to the error stub), and the remaining operations to safe constant
or void no-op defaults — not to error stubs. -/
theorem default_bindings_characterization (rm chip : Nat)
    (hgh : gh100Pred chip = false) (hpf : pfPred rm = false) :
    __nvoc_init_funcTable_ConfidentialCompute_1 rm chip =
      { confComputeConstructEngine := .confComputeConstructEngine_IMPL
        confComputeDestruct := .confComputeDestruct_b3696a
        confComputeStatePreInitLocked := .confComputeStatePreInitLocked_56cd7a
        confComputeStateInitLocked := .confComputeStateInitLocked_IMPL
        confComputeStatePostLoad := .confComputeStatePostLoad_56cd7a
        confComputeStatePreUnload := .confComputeStatePreUnload_56cd7a
        confComputeSetErrorState := .confComputeSetErrorState_b3696a
        confComputeKeyStoreRetrieveViaChannel :=
          .confComputeKeyStoreRetrieveViaChannel_46f6a7
        confComputeKeyStoreRetrieveViaKeyId :=
          .confComputeKeyStoreRetrieveViaKeyId_46f6a7
        confComputeDeriveSecretsForCEKeySpace :=
          .confComputeDeriveSecretsForCEKeySpace_46f6a7
        confComputeDeriveSecrets := .confComputeDeriveSecrets_46f6a7
        confComputeUpdateSecrets := .confComputeUpdateSecrets_46f6a7
        confComputeIsSpdmEnabled := .confComputeIsSpdmEnabled_491d52
        confComputeGetEngineIdFromKeySpace :=
          .confComputeGetEngineIdFromKeySpace_78ac8b
        confComputeGetKeySpaceFromKChannel :=
          .confComputeGetKeySpaceFromKChannel_46f6a7
        confComputeGetLceKeyIdFromKChannel :=
          .confComputeGetLceKeyIdFromKChannel_46f6a7
        confComputeGetMaxCeKeySpaceIdx := .confComputeGetMaxCeKeySpaceIdx_4a4dee
        confComputeGlobalKeyIsKernelPriv :=
          .confComputeGlobalKeyIsKernelPriv_491d52
        confComputeGlobalKeyIsUvmKey := .confComputeGlobalKeyIsUvmKey_491d52
        confComputeGetKeyPairByChannel := .confComputeGetKeyPairByChannel_46f6a7
        confComputeTriggerKeyRotation :=
          if vfPred rm then .confComputeTriggerKeyRotation_46f6a7
          else .confComputeTriggerKeyRotation_56cd7a
        confComputeGetKeyPairForKeySpace :=
          .confComputeGetKeyPairForKeySpace_b3696a
        confComputeEnableKeyRotationCallback :=
          .confComputeEnableKeyRotationCallback_56cd7a
        confComputeEnableKeyRotationSupport :=
          .confComputeEnableKeyRotationSupport_56cd7a
        confComputeEnableInternalKeyRotationSupport :=
          .confComputeEnableInternalKeyRotationSupport_56cd7a
        confComputeIsDebugModeEnabled := .confComputeIsDebugModeEnabled_491d52
        confComputeIsGpuCcCapable := .confComputeIsGpuCcCapable_491d52
        confComputeEstablishSpdmSessionAndKeys :=
          .confComputeEstablishSpdmSessionAndKeys_46f6a7
        confComputeKeyStoreDepositIvMask :=
          .confComputeKeyStoreDepositIvMask_b3696a
        confComputeKeyStoreUpdateKey := .confComputeKeyStoreUpdateKey_46f6a7
        confComputeKeyStoreIsValidGlobalKeyId :=
          .confComputeKeyStoreIsValidGlobalKeyId_491d52
        confComputeKeyStoreInit := .confComputeKeyStoreInit_46f6a7
        confComputeKeyStoreDeinit := .confComputeKeyStoreDeinit_b3696a
        confComputeKeyStoreGetExportMasterKey :=
          .confComputeKeyStoreGetExportMasterKey_fa6e19
        confComputeKeyStoreDeriveKey := .confComputeKeyStoreDeriveKey_46f6a7
        confComputeKeyStoreClearExportMasterKey :=
          .confComputeKeyStoreClearExportMasterKey_b3696a
        engstateConstructEngine :=
          .nvocThunk_ConfidentialCompute_engstateConstructEngine
        engstateStatePreInitLocked :=
          .nvocThunk_ConfidentialCompute_engstateStatePreInitLocked
        engstateStateInitLocked :=
          .nvocThunk_ConfidentialCompute_engstateStateInitLocked
        engstateStatePostLoad :=
          .nvocThunk_ConfidentialCompute_engstateStatePostLoad
        engstateStatePreUnload :=
          .nvocThunk_ConfidentialCompute_engstateStatePreUnload
        confComputeStateLoad := .nvocThunk_OBJENGSTATE_confComputeStateLoad
        confComputeStateUnload := .nvocThunk_OBJENGSTATE_confComputeStateUnload
        confComputeStatePreLoad := .nvocThunk_OBJENGSTATE_confComputeStatePreLoad
        confComputeStatePostUnload :=
          .nvocThunk_OBJENGSTATE_confComputeStatePostUnload
        confComputeStateDestroy := .nvocThunk_OBJENGSTATE_confComputeStateDestroy
        confComputeStateInitUnlocked :=
          .nvocThunk_OBJENGSTATE_confComputeStateInitUnlocked
        confComputeInitMissing := .nvocThunk_OBJENGSTATE_confComputeInitMissing
        confComputeStatePreInitUnlocked :=
          .nvocThunk_OBJENGSTATE_confComputeStatePreInitUnlocked
        confComputeIsPresent := .nvocThunk_OBJENGSTATE_confComputeIsPresent } := by
  simp [__nvoc_init_funcTable_ConfidentialCompute_1, hgh, hpf]

/-- Witness for `default_bindings_characterization` at `rm = 0` (VF),
`chip = 0`. -/
theorem default_bindings_characterization_witness :
    gh100Pred 0 = false ∧ pfPred 0 = false ∧
    (__nvoc_init_funcTable_ConfidentialCompute_1 0 0).confComputeKeyStoreInit
        = .confComputeKeyStoreInit_46f6a7 ∧
    (__nvoc_init_funcTable_ConfidentialCompute_1 0 0).confComputeEnableKeyRotationSupport
        = .confComputeEnableKeyRotationSupport_56cd7a :=
  ⟨by decide, by decide,
    by rw [default_bindings_characterization 0 0 (by decide) (by decide)],
    by rw [default_bindings_characterization 0 0 (by decide) (by decide)]⟩

/-- C8 counterexample: two failing exits of
`__nvoc_objCreate_ConfidentialCompute` survive with partially-constructed
state.  With a NULL parent the function returns `NV_ERR_INVALID_ARGUMENT`
directly: the allocated block is neither freed nor re-zeroed and `*ppThis`
is not set to NULL.  With a parent that has no `RmHalspecOwner` ancestor the
function also returns directly, leaving the child still linked into the
parent and the block still allocated. -/
theorem objCreate_assert_paths_leak_counterexample :
    (__nvoc_objCreate_ConfidentialCompute .NV_OK true true .NV_OK
        ⟨false, false⟩ 1 60).status = .NV_ERR_INVALID_ARGUMENT ∧
    (__nvoc_objCreate_ConfidentialCompute .NV_OK true true .NV_OK
        ⟨false, false⟩ 1 60).mem = .allocatedPartial ∧
    (__nvoc_objCreate_ConfidentialCompute .NV_OK true true .NV_OK
        ⟨false, false⟩ 1 60).ppThisNulled = false ∧
    (__nvoc_objCreate_ConfidentialCompute .NV_OK false false .NV_OK
        ⟨false, false⟩ 1 60).status = .NV_ERR_INVALID_ARGUMENT ∧
    (__nvoc_objCreate_ConfidentialCompute .NV_OK false false .NV_OK
        ⟨false, false⟩ 1 60).childLinked = true ∧
    (__nvoc_objCreate_ConfidentialCompute .NV_OK false false .NV_OK
        ⟨false, false⟩ 1 60).mem = .allocatedPartial := by
  decide

/-- C8 amended: only the constructor-failure exit runs the cleanup label —
it returns the failing status, unlinks the child, and either frees the block
(setting `*ppThis` to NULL) or re-zeroes it for in-place construction; the
parent-missing and halspec-owner-missing assert exits instead return
`NV_ERR_INVALID_ARGUMENT` immediately, leaving the block allocated, `*ppThis`
untouched and, in the halspec-owner case, the child still linked. -/
theorem objCreate_failure_paths (ctorStatus : NV_STATUS)
    (createFlags : CreateFlags) (rm chip : Nat)
    (h : ctorStatus ≠ .NV_OK) :
    __nvoc_objCreate_ConfidentialCompute .NV_OK false true ctorStatus
        createFlags rm chip =
      { status := ctorStatus, childLinked := false,
        mem := if createFlags.inPlaceConstruct then .zeroed else .freed,
        ppThisNulled := !createFlags.inPlaceConstruct, obj := none } ∧
    __nvoc_objCreate_ConfidentialCompute .NV_OK true true ctorStatus
        createFlags rm chip =
      { status := .NV_ERR_INVALID_ARGUMENT, childLinked := false,
        mem := .allocatedPartial, ppThisNulled := false, obj := none } ∧
    __nvoc_objCreate_ConfidentialCompute .NV_OK false false ctorStatus
        createFlags rm chip =
      { status := .NV_ERR_INVALID_ARGUMENT,
        childLinked := !createFlags.parentHalspecOnly,
        mem := .allocatedPartial, ppThisNulled := false, obj := none } := by
  refine ⟨?_, ?_, ?_⟩ <;>
    simp [__nvoc_objCreate_ConfidentialCompute, h]

/-- Witness for `objCreate_failure_paths` with a failing constructor status
and default flags. -/
theorem objCreate_failure_paths_witness :
    NV_STATUS.NV_ERR_GENERIC 5 ≠ NV_STATUS.NV_OK ∧
    (__nvoc_objCreate_ConfidentialCompute .NV_OK false true
          (.NV_ERR_GENERIC 5) ⟨false, false⟩ 1 60 =
        { status := .NV_ERR_GENERIC 5, childLinked := false, mem := .freed,
          ppThisNulled := true, obj := none } ∧
      __nvoc_objCreate_ConfidentialCompute .NV_OK true true
          (.NV_ERR_GENERIC 5) ⟨false, false⟩ 1 60 =
        { status := .NV_ERR_INVALID_ARGUMENT, childLinked := false,
          mem := .allocatedPartial, ppThisNulled := false, obj := none } ∧
      __nvoc_objCreate_ConfidentialCompute .NV_OK false false
          (.NV_ERR_GENERIC 5) ⟨false, false⟩ 1 60 =
        { status := .NV_ERR_INVALID_ARGUMENT, childLinked := true,
          mem := .allocatedPartial, ppThisNulled := false, obj := none }) :=
  ⟨by decide,
    objCreate_failure_paths (.NV_ERR_GENERIC 5) ⟨false, false⟩ 1 60 (by decide)⟩

end NvocConfCompute

namespace MemMgrGB20B

/-- C10 counterexample: the recognized input kinds of
`memmgrGetCompressedKind_GB20B` — those mapped to a value other than
`NV_MMU_PTE_KIND_INVALID` — number exactly seven, not nine (all recognized
kinds lie below 256; the characterization theorem covers the rest of the
domain). -/
theorem getCompressedKind_seven_recognized_counterexample :
    ((List.range 256).filter
        (fun k => memmgrGetCompressedKind_GB20B k true != NV_MMU_PTE_KIND_INVALID)).length
      = 7 ∧
    ((List.range 256).filter
        (fun k => memmgrGetCompressedKind_GB20B k false != NV_MMU_PTE_KIND_INVALID)).length
      = 7 ∧
    (7 : Nat) ≠ 9 := by
  refine ⟨by decide, by decide, by decide⟩

/-- C10 amended: `memmgrGetCompressedKind_GB20B` is total, returns one of
exactly four compressible kinds for the seven recognized input kinds and
`NV_MMU_PTE_KIND_INVALID` for every other input, and is idempotent for each
fixed `bDisablePlc`. -/
theorem getCompressedKind_characterization (kind : Nat) (b : Bool) :
    (memmgrGetCompressedKind_GB20B kind b
        = NV_MMU_PTE_KIND_GENERIC_MEMORY_COMPRESSIBLE ∨
     memmgrGetCompressedKind_GB20B kind b
        = NV_MMU_PTE_KIND_GENERIC_MEMORY_COMPRESSIBLE_DISABLE_PLC ∨
     memmgrGetCompressedKind_GB20B kind b
        = NV_MMU_PTE_KIND_S8_COMPRESSIBLE_DISABLE_PLC ∨
     memmgrGetCompressedKind_GB20B kind b
        = NV_MMU_PTE_KIND_Z16_COMPRESSIBLE_DISABLE_PLC ∨
     memmgrGetCompressedKind_GB20B kind b = NV_MMU_PTE_KIND_INVALID) ∧
    (memmgrGetCompressedKind_GB20B kind b ≠ NV_MMU_PTE_KIND_INVALID ↔
      kind ∈ [NV_MMU_PTE_KIND_GENERIC_MEMORY,
        NV_MMU_PTE_KIND_GENERIC_MEMORY_COMPRESSIBLE,
        NV_MMU_PTE_KIND_GENERIC_MEMORY_COMPRESSIBLE_DISABLE_PLC,
        NV_MMU_PTE_KIND_S8, NV_MMU_PTE_KIND_S8_COMPRESSIBLE_DISABLE_PLC,
        NV_MMU_PTE_KIND_Z16, NV_MMU_PTE_KIND_Z16_COMPRESSIBLE_DISABLE_PLC]) ∧
    memmgrGetCompressedKind_GB20B (memmgrGetCompressedKind_GB20B kind b) b
      = memmgrGetCompressedKind_GB20B kind b := by
  by_cases hk : kind < 16
  · interval_cases kind <;> cases b <;> decide
  · have hf : memmgrGetCompressedKind_GB20B kind b = NV_MMU_PTE_KIND_INVALID := by
      unfold memmgrGetCompressedKind_GB20B
      rw [if_neg, if_neg, if_neg] <;>
        simp only [NV_MMU_PTE_KIND_GENERIC_MEMORY,
          NV_MMU_PTE_KIND_GENERIC_MEMORY_COMPRESSIBLE,
          NV_MMU_PTE_KIND_GENERIC_MEMORY_COMPRESSIBLE_DISABLE_PLC,
          NV_MMU_PTE_KIND_S8, NV_MMU_PTE_KIND_S8_COMPRESSIBLE_DISABLE_PLC,
          NV_MMU_PTE_KIND_Z16, NV_MMU_PTE_KIND_Z16_COMPRESSIBLE_DISABLE_PLC,
          not_or] <;> omega
    refine ⟨Or.inr (Or.inr (Or.inr (Or.inr hf))), ?_, ?_⟩
    · rw [hf]
      simp only [ne_eq, not_true_eq_false, false_iff,
        List.mem_cons, List.not_mem_nil, or_false, not_or,
        NV_MMU_PTE_KIND_GENERIC_MEMORY,
        NV_MMU_PTE_KIND_GENERIC_MEMORY_COMPRESSIBLE,
        NV_MMU_PTE_KIND_GENERIC_MEMORY_COMPRESSIBLE_DISABLE_PLC,
        NV_MMU_PTE_KIND_S8, NV_MMU_PTE_KIND_S8_COMPRESSIBLE_DISABLE_PLC,
        NV_MMU_PTE_KIND_Z16, NV_MMU_PTE_KIND_Z16_COMPRESSIBLE_DISABLE_PLC]
      omega
    · rw [hf]
      cases b <;> decide

end MemMgrGB20B
